import Mathlib

/-!
Shallow embedding of the SSHNetworkDevice repository (ssh_network_device.py,
ssh_cisco_device.py, utils.py): a driver for interactive SSH CLI sessions on
network devices.  Channel input is modelled as a script of chunks, each tagged
with the number of deciseconds of channel silence preceding it (the source
polls every 0.1 seconds).  Python exceptions are modelled with an error type,
and Python mutation with explicit state passing.  The regular-expression calls
(re.match and re.search, both with re.IGNORECASE) are modelled with a small
derivative based engine covering the constructs the repository uses: literal
characters, dot, star, grouping and backslash escapes.
-/

namespace Re

/-- Regular-expression abstract syntax for the subset of Python re used by the
repository: empty set, empty string, literal character, dot, alternation
(arising during derivative computation), concatenation and star. -/
inductive Regex where
  | emp : Regex
  | eps : Regex
  | char : Char → Regex
  | anyc : Regex
  | alt : Regex → Regex → Regex
  | cat : Regex → Regex → Regex
  | star : Regex → Regex
  deriving DecidableEq

/-- Does the regular expression accept the empty string. -/
def nullable : Regex → Bool
  | .emp => false
  | .eps => true
  | .char _ => false
  | .anyc => false
  | .alt a b => nullable a || nullable b
  | .cat a b => nullable a && nullable b
  | .star _ => true

/-- Smart alternation keeping derivative terms small. -/
def mkAlt : Regex → Regex → Regex
  | .emp, r => r
  | r, .emp => r
  | a, b => .alt a b

/-- Smart concatenation keeping derivative terms small. -/
def mkCat : Regex → Regex → Regex
  | .emp, _ => .emp
  | _, .emp => .emp
  | .eps, r => r
  | r, .eps => r
  | a, b => .cat a b

/-- Brzozowski derivative with respect to one input character, case
insensitive (modelling re.IGNORECASE).  Dot does not match a newline,
following Python re without DOTALL. -/
def deriv : Regex → Char → Regex
  | .emp, _ => .emp
  | .eps, _ => .emp
  | .char c, a => if c.toLower = a.toLower then .eps else .emp
  | .anyc, a => if a = Char.ofNat 10 then .emp else .eps
  | .alt r1 r2, a => mkAlt (deriv r1 a) (deriv r2 a)
  | .cat r1 r2, a =>
      if nullable r1 then mkAlt (mkCat (deriv r1 a) r2) (deriv r2 a)
      else mkCat (deriv r1 a) r2
  | .star r, a => mkCat (deriv r a) (.star r)

/-- Does some initial segment of the character list match the regular
expression (the semantics of Python re.match, which anchors at the start
but not at the end). -/
def matchAtStart : Regex → List Char → Bool
  | r, [] => nullable r
  | r, a :: as => nullable r || matchAtStart (deriv r a) as

/-- Does the regular expression match starting at any position (the semantics
of Python re.search). -/
def searchAnywhere : Regex → List Char → Bool
  | r, [] => nullable r
  | r, a :: as => matchAtStart r (a :: as) || searchAnywhere r as

/-- Recursive-descent translation of a pattern string into a Regex value,
covering the metacharacters used by the repository: grouping with
parentheses, dot, star, and backslash escapes; every other character is a
literal.  The fuel argument bounds recursion depth. -/
def parseSeq : Nat → List Char → Option (Regex × List Char)
  | 0, _ => none
  | _ + 1, [] => some (Regex.eps, [])
  | f + 1, c :: cs =>
    if c = ')' then some (Regex.eps, c :: cs)
    else
      let atom : Option (Regex × List Char) :=
        if c = '(' then
          match parseSeq f cs with
          | some (r, d :: rest2) => if d = ')' then some (r, rest2) else none
          | _ => none
        else if c = '.' then some (Regex.anyc, cs)
        else if c = '\\' then
          match cs with
          | d :: cs2 => some (Regex.char d, cs2)
          | [] => none
        else some (Regex.char c, cs)
      match atom with
      | none => none
      | some (a, rest) =>
        let starred : Regex × List Char :=
          match rest with
          | d :: rest2 => if d = '*' then (Regex.star a, rest2) else (a, rest)
          | [] => (a, rest)
        match parseSeq f starred.2 with
        | some (b, rest3) => some (Regex.cat starred.1 b, rest3)
        | none => none

/-- Translate a whole pattern string; none when the pattern is outside the
modelled subset. -/
def parsePattern (p : String) : Option Regex :=
  match parseSeq (p.data.length + 1) p.data with
  | some (r, []) => some r
  | _ => none

end Re

/-- Model of Python re.match(pattern, target, re.IGNORECASE) is not None:
case-insensitive matching anchored at the start of the target. -/
def reMatch (pattern target : String) : Bool :=
  match Re.parsePattern pattern with
  | some r => Re.matchAtStart r target.data
  | none => false

/-- Model of Python re.search(pattern, target, re.IGNORECASE) is not None:
case-insensitive matching at any position of the target. -/
def reSearch (pattern target : String) : Bool :=
  match Re.parsePattern pattern with
  | some r => Re.searchAnywhere r target.data
  | none => false

/-- Split a character list on a separator character, keeping empty pieces,
with the semantics of Python str.split with an explicit separator. -/
def splitCharsOn (sep : Char) : List Char → List (List Char)
  | [] => [[]]
  | c :: rest =>
    match splitCharsOn sep rest with
    | [] => [[]]
    | h :: t => if c = sep then [] :: h :: t else (c :: h) :: t

/-- Model of Python data.split with separator newline. -/
def pySplitNl (s : String) : List String :=
  (splitCharsOn (Char.ofNat 10) s.data).map String.mk

/-- Model of the source expression
lstrip carriage-return, then lstrip newline, then rstrip carriage-return,
then rstrip newline, applied in exactly that order as in
_boundary_for_interactive. -/
def pyStrip (s : String) : String :=
  let l1 := s.data.dropWhile (fun c => c == Char.ofNat 13)
  let l2 := l1.dropWhile (fun c => c == Char.ofNat 10)
  let l3 := (l2.reverse.dropWhile (fun c => c == Char.ofNat 13)).reverse
  let l4 := (l3.reverse.dropWhile (fun c => c == Char.ofNat 10)).reverse
  String.mk l4

/-- Model of Python str.lower for the strings in scope. -/
def pyLower (s : String) : String :=
  String.mk (s.data.map Char.toLower)

deriving instance DecidableEq for Except

/-- Model of utils.is_host_ip_address and the identical helper in
ssh_cisco_device.py, which delegate to the ipaddress library: accept a
dotted-quad IPv4 address (four decimal components, each 0 to 255, digits
only, no leading zero).  IPv6 literals contain a colon and never arise as
the hostnames considered in this development, so they are not modelled. -/
def digitsVal (l : List Char) : Nat :=
  l.foldl (fun a c => a * 10 + (c.toNat - 48)) 0

/-- One dotted-quad component as accepted by ipaddress.IPv4Address. -/
def isOctet (l : List Char) : Bool :=
  decide (l ≠ []) && decide (l.length ≤ 3) && l.all (fun c => c.isDigit)
    && (decide (l.length = 1) || decide (l.headD '0' ≠ '0'))
    && decide (digitsVal l ≤ 255)

/-- Model of is_host_ip_address from the source. -/
def is_host_ip_address (host : String) : Bool :=
  let parts := splitCharsOn '.' host.data
  decide (parts.length = 4) && parts.all isOctet

/-- The Python exceptions that the source can raise, as observed by a caller:
SSHNetworkDeviceError, ValueError, TimeoutError, the UnboundLocalError that
_boundary_for_interactive raises when its loop body never runs, and the
RecursionError produced by unbounded mutual recursion. -/
inductive DevError where
  | sshError : String → DevError
  | valueError : String → DevError
  | timeoutError : String → DevError
  | unboundLocal : String → DevError
  | recursionError : DevError
  deriving DecidableEq

/-- Session state: the constructor arguments the claims depend on, the three
CLI mode flags, whether the channel has been closed, the wire data sent so
far, and the scripted channel input still pending (delay in deciseconds of
silence before the chunk, then the chunk text). -/
structure DeviceState where
  host : String
  defaultBoundaryPattern : String
  initialCommand : String
  privilegePassword : Option String
  userMode : Bool
  privilegeMode : Bool
  configMode : Bool
  channelClosed : Bool
  sent : List String
  script : List (Nat × String)
  deriving DecidableEq

/-- Prompt for user mode, from _set_prompt_vaule in ssh_cisco_device.py. -/
def user_mode_prompt : String := ">"

/-- Prompt for privilege mode, from _set_prompt_vaule. -/
def privilege_mode_prompt : String := "#"

/-- Prompt pattern for config mode, from _set_prompt_vaule. -/
def config_mode_prompt : String := "(config.*)#"

/-- Message of the TimeoutError raised by _flush_buffer. -/
def msg_timeout : String := "It takes too long to get data from the remote device."

/-- Message of the SSHNetworkDeviceError raised when no CLI mode flag is set
while resolving the boundary pattern in _send. -/
def msg_set_bp_failed : String := "Set boundary_pattern failed. Unexpected status."

/-- Message of the ValueError raised by exec_command for a command count
other than one. -/
def msg_value_single : String := "The exec_command only use to execute one command."

/-- Message of the ValueError raised by exec_multiple_commands for an empty
command list. -/
def msg_value_empty : String := "You did not provide any command. The Commands.commands you provided is empty."

/-- Message of the SSHNetworkDeviceError raised by exec_command when still
not in privilege mode. -/
def msg_not_priv : String := "You are not at the privilege mode."

/-- Message of the SSHNetworkDeviceError raised by exec_multiple_commands
when in neither privilege nor config mode. -/
def msg_not_priv_or_config : String := "You are not at the config or privilege mode."

/-- Message of the SSHNetworkDeviceError raised by _enter_privilege_mode on a
missing privilege password. -/
def msg_missing : String := "Missing Privilege Mode Password"

/-- Message of the SSHNetworkDeviceError raised by _enter_privilege_mode when
not in user mode. -/
def msg_unexpected_flag : String := "Unexpected CLI mode flag."

/-- Message prefix of the SSHNetworkDeviceError raised by _check_initial_mode
when neither prompt form matches. -/
def msg_unexpected_prompt : String := "Unexpected CLI prompt: "

/-- Message of the SSHNetworkDeviceError raised by the base-class stubs for
methods a sub-class is meant to re-write (_enter_config_mode is such a stub
and SSHCiscoDevice does not override it). -/
def msg_abstract : String := "Please do not use this class directly. You should create a sub-class for your network device."

/-- Message of the SSHNetworkDeviceError raised by the Cisco
_set_default_boundary_pattern when the host is a bare IP address. -/
def msg_ip_host : String := "The host you provided is an ip address. In this case, you should provide boundary_partten."

/-- The read loop of _boundary_for_interactive, entered when the current
target string does not match the boundary pattern.  Each iteration performs
the receive step of _flush_buffer: if no chunk is pending, or the pending
chunk is preceded by at least expired_time deciseconds of silence (and some
silence at all, since _flush_buffer returns at once when data is already
ready), a TimeoutError is raised; otherwise the chunk is appended to the
accumulated data, the data is split on newline, and the stripped last line is
tested against the pattern with re.match under re.IGNORECASE. -/
def boundary_loop (pattern : String) (expired_time : Nat) :
    String → List (Nat × String) →
      (Except DevError (String × List String)) × List (Nat × String)
  | _, [] => (.error (.timeoutError msg_timeout), [])
  | data, (d, chunk) :: rest =>
    if 0 < d ∧ expired_time ≤ d then
      (.error (.timeoutError msg_timeout), (d, chunk) :: rest)
    else
      let data2 := data ++ chunk
      let dsplit := pySplitNl data2
      let target := pyStrip (dsplit.getLastD "")
      if reMatch pattern target then (.ok (data2, dsplit), rest)
      else boundary_loop pattern expired_time data2 rest

/-- Model of _boundary_for_interactive.  The loop condition is first tested
against the initial empty target string; when the pattern matches the empty
string the loop body never runs, so the Python return statement reads the
never-assigned local data_split and raises UnboundLocalError. -/
def boundary_for_interactive (pattern : String) (expired_time : Nat)
    (st : DeviceState) :
    (Except DevError (String × List String)) × DeviceState :=
  if reMatch pattern "" then (.error (.unboundLocal "data_split"), st)
  else
    let pr := boundary_loop pattern expired_time "" st.script
    (pr.1, { st with script := pr.2 })

/-- The boundary-pattern resolution step at the start of _send: a non-empty
override is used directly, otherwise the default pattern is suffixed with the
prompt of the current CLI mode, and with no mode flag set an
SSHNetworkDeviceError is raised. -/
def resolve_boundary (bp : String) (st : DeviceState) : Except DevError String :=
  if bp ≠ "" then .ok bp
  else if st.userMode then .ok (st.defaultBoundaryPattern ++ user_mode_prompt)
  else if st.privilegeMode then .ok (st.defaultBoundaryPattern ++ privilege_mode_prompt)
  else if st.configMode then .ok (st.defaultBoundaryPattern ++ config_mode_prompt)
  else .error (.sshError msg_set_bp_failed)

/-- The bytes _send writes to the channel: a bare newline is sent as is, any
other command gets a newline appended. -/
def wire_of (command : String) : String :=
  if command = "\n" then command else command ++ "\n"

/-- Model of _send: resolve the boundary pattern, write the command to the
channel, then read until the boundary with the default expiry of 30 seconds
(300 deciseconds). -/
def send_cmd (command bp : String) (st : DeviceState) :
    (Except DevError (String × List String)) × DeviceState :=
  match resolve_boundary bp st with
  | .error e => (.error e, st)
  | .ok pat =>
    boundary_for_interactive pat 300 { st with sent := st.sent ++ [wire_of command] }

/-- The for-loop of exec_multiple_commands: send each command in order,
collecting the split rows per command; an exception from _send propagates. -/
def send_loop : List String → String → DeviceState →
    (Except DevError (List (List String))) × DeviceState
  | [], _, st => (.ok [], st)
  | c :: rest, bp, st =>
    match send_cmd c bp st with
    | (.error e, st1) => (.error e, st1)
    | (.ok rs, st1) =>
      match send_loop rest bp st1 with
      | (.error e, st2) => (.error e, st2)
      | (.ok acc, st2) => (.ok (rs.2 :: acc), st2)

/-- Model of _enter_config_mode: the base class raises the re-write-me
SSHNetworkDeviceError and SSHCiscoDevice does not override the method, so
every call raises. -/
def enter_config_mode (st : DeviceState) : (Except DevError Unit) × DeviceState :=
  (.error (.sshError msg_abstract), st)

mutual

/-- Model of SSHCiscoDevice._enter_privilege_mode.  From user mode with no
privilege password the channel is closed and an SSHNetworkDeviceError is
raised; with a password the method calls the high-level
exec_multiple_commands with enable and the password, then flips the flags
and disables paging via terminal length 0 (inlined call to exec_command, as
_terminal_length_zero does).  The fuel argument bounds the mutual recursion
with exec_multiple_commands; exhausted fuel models the RecursionError that
Python raises on unbounded recursion. -/
def enter_privilege_mode : Nat → DeviceState → (Except DevError Unit) × DeviceState
  | 0, st => (.error .recursionError, st)
  | f + 1, st =>
    if st.userMode then
      match st.privilegePassword with
      | none => (.error (.sshError msg_missing), { st with channelClosed := true })
      | some pw =>
        match exec_multiple_commands f ["enable", pw]
            (st.defaultBoundaryPattern ++ privilege_mode_prompt) false st with
        | (.error e, st1) => (.error e, st1)
        | (.ok _, st1) =>
          let st2 := { st1 with userMode := false, privilegeMode := true, configMode := false }
          match exec_command f ["terminal length 0"] "" st2 with
          | (.error e, st3) => (.error e, st3)
          | (.ok _, st3) => (.ok (), st3)
    else (.error (.sshError msg_unexpected_flag), st)

/-- Model of exec_multiple_commands.  Mode handling runs first: with config
requested and the config flag unset, _enter_config_mode runs (and raises);
without config and the privilege flag unset, _enter_privilege_mode runs.
Only then are the flags re-checked, the command list tested for emptiness,
and the commands sent in order. -/
def exec_multiple_commands : Nat → List String → String → Bool → DeviceState →
    (Except DevError (List (List String))) × DeviceState
  | 0, _, _, _, st => (.error .recursionError, st)
  | f + 1, cmds, bp, cfg, st =>
    let step : (Except DevError Unit) × DeviceState :=
      if cfg then
        if st.configMode then (.ok (), st) else enter_config_mode st
      else
        if st.privilegeMode then (.ok (), st) else enter_privilege_mode f st
    match step with
    | (.error e, st1) => (.error e, st1)
    | (.ok _, st1) =>
      if st1.privilegeMode || st1.configMode then
        if 0 < cmds.length then send_loop cmds bp st1
        else (.error (.valueError msg_value_empty), st1)
      else (.error (.sshError msg_not_priv_or_config), st1)

/-- Model of exec_command: exactly one command is required (else ValueError,
raised before any mode handling); if the privilege flag is unset,
_enter_privilege_mode runs; the flag is then re-checked and the command is
sent, else an SSHNetworkDeviceError is raised. -/
def exec_command : Nat → List String → String → DeviceState →
    (Except DevError (List String)) × DeviceState
  | 0, _, _, st => (.error .recursionError, st)
  | f + 1, cmds, bp, st =>
    match cmds with
    | [c] =>
      match (if st.privilegeMode then ((.ok (), st) : (Except DevError Unit) × DeviceState)
             else enter_privilege_mode f st) with
      | (.error e, st1) => (.error e, st1)
      | (.ok _, st1) =>
        if st1.privilegeMode then
          match send_cmd c bp st1 with
          | (.error e, st2) => (.error e, st2)
          | (.ok rs, st2) => (.ok rs.2, st2)
        else (.error (.sshError msg_not_priv), st1)
    | _ => (.error (.valueError msg_value_single), st)

end

/-- Model of _terminal_length_zero: exec_command with terminal length 0 and
no boundary override. -/
def terminal_length_zero (f : Nat) (st : DeviceState) :
    (Except DevError (List String)) × DeviceState :=
  exec_command f ["terminal length 0"] "" st

/-- Model of SSHCiscoDevice._check_initial_mode: send the initial command
with the default boundary pattern, lowercase the last returned line, and
test it with re.search against default-pattern plus user prompt, then
default-pattern plus privilege prompt; set the flags of whichever form
matches first (running terminal length 0 in the privilege case), else raise
SSHNetworkDeviceError with the unexpected prompt. -/
def check_initial_mode (f : Nat) (st : DeviceState) :
    (Except DevError Unit) × DeviceState :=
  match send_cmd st.initialCommand st.defaultBoundaryPattern st with
  | (.error e, st1) => (.error e, st1)
  | (.ok rs, st1) =>
    let target := pyLower (rs.2.getLastD "")
    if reSearch (st.defaultBoundaryPattern ++ user_mode_prompt) target then
      (.ok (), { st1 with userMode := true, privilegeMode := false, configMode := false })
    else if reSearch (st.defaultBoundaryPattern ++ privilege_mode_prompt) target then
      let st2 := { st1 with userMode := false, privilegeMode := true, configMode := false }
      match terminal_length_zero f st2 with
      | (.error e, st3) => (.error e, st3)
      | (.ok _, st3) => (.ok (), st3)
    else (.error (.sshError (msg_unexpected_prompt ++ target)), st1)

/-- Model of _set_initial_command: an empty argument defaults to a bare
newline. -/
def set_initial_command (ic : String) : String :=
  if ic ≠ "" then ic else "\n"

/-- Model of SSHCiscoDevice._set_default_boundary_pattern: a non-empty
argument is used directly; otherwise the hostname becomes the pattern,
rejected with SSHNetworkDeviceError when the host is a bare IP address. -/
def set_default_boundary_pattern_cisco (host pattern : String) :
    Except DevError String :=
  if pattern ≠ "" then .ok pattern
  else if is_host_ip_address host then .error (.sshError msg_ip_host)
  else .ok host

/-- The session state right after the SSH channel is obtained, with all three
CLI mode flags initialized to false as in SSHNetworkDevice.__init__. -/
def freshDeviceState (host dbp ic : String) (pw : Option String)
    (script : List (Nat × String)) : DeviceState :=
  { host := host, defaultBoundaryPattern := dbp, initialCommand := ic,
    privilegePassword := pw, userMode := false, privilegeMode := false,
    configMode := false, channelClosed := false, sent := [], script := script }

/-- Model of constructing an SSHCiscoDevice: the configuration steps
(_set_initial_command, _set_default_boundary_pattern, _set_prompt_vaule) run
before the SSH connection is made; the boundary-pattern step can raise, and
only afterwards is the channel opened, the flags initialized to false, and
__initial_actions run (clearing the first rows by reading up to the default
boundary pattern, then _check_initial_mode). -/
def mkSSHCiscoDevice (f : Nat) (host pattern ic : String) (pw : Option String)
    (script : List (Nat × String)) : Except DevError DeviceState :=
  match set_default_boundary_pattern_cisco host pattern with
  | .error e => .error e
  | .ok dbp =>
    let st0 := freshDeviceState host dbp (set_initial_command ic) pw script
    match boundary_for_interactive dbp 300 st0 with
    | (.error e, _) => .error e
    | (.ok _, st1) =>
      match check_initial_mode f st1 with
      | (.error e, _) => .error e
      | (.ok _, st2) => .ok st2

/-- Concatenation of the chunk texts of a channel script. -/
def chunksData : List (Nat × String) → String
  | [] => ""
  | (_, c) :: rest => c ++ chunksData rest

/-- Exactly one of the three CLI mode flags is set. -/
def exactlyOneMode (st : DeviceState) : Bool :=
  (st.userMode && !st.privilegeMode && !st.configMode) ||
  (!st.userMode && st.privilegeMode && !st.configMode) ||
  (!st.userMode && !st.privilegeMode && st.configMode)

/-- Modelled from the spec, for comparison with the source: the user-prompt
form tested with prefix-anchored, case-insensitive matching against the
trimmed last line, as the spec standardizes for initial mode detection. -/
def spec_initial_user_match (dbp l : String) : Bool :=
  reMatch (dbp ++ user_mode_prompt) (pyStrip l)

/-- Modelled from the spec, for comparison with the source: the
privileged-prompt form tested with prefix-anchored, case-insensitive
matching against the trimmed last line. -/
def spec_initial_priv_match (dbp l : String) : Bool :=
  reMatch (dbp ++ privilege_mode_prompt) (pyStrip l)

theorem str_data_append (a b : String) : (a ++ b).data = a.data ++ b.data := rfl

theorem str_empty_append (s : String) : "" ++ s = s := by
  cases s with
  | mk l => rfl

theorem str_append_empty (s : String) : s ++ "" = s := by
  cases s with
  | mk l => show String.mk (l ++ []) = String.mk l; rw [List.append_nil]

theorem str_append_assoc (a b c : String) : a ++ b ++ c = a ++ (b ++ c) := by
  cases a with
  | mk la =>
    cases b with
    | mk lb =>
      cases c with
      | mk lc =>
        show String.mk (la ++ lb ++ lc) = String.mk (la ++ (lb ++ lc))
        rw [List.append_assoc]

theorem bfi_modes (p : String) (w : Nat) (st : DeviceState) :
    ((boundary_for_interactive p w st).2).userMode = st.userMode ∧
    ((boundary_for_interactive p w st).2).privilegeMode = st.privilegeMode ∧
    ((boundary_for_interactive p w st).2).configMode = st.configMode ∧
    ((boundary_for_interactive p w st).2).channelClosed = st.channelClosed := by
  unfold boundary_for_interactive
  split
  · exact ⟨rfl, rfl, rfl, rfl⟩
  · exact ⟨rfl, rfl, rfl, rfl⟩

theorem send_cmd_modes (c bp : String) (st : DeviceState) :
    ((send_cmd c bp st).2).userMode = st.userMode ∧
    ((send_cmd c bp st).2).privilegeMode = st.privilegeMode ∧
    ((send_cmd c bp st).2).configMode = st.configMode ∧
    ((send_cmd c bp st).2).channelClosed = st.channelClosed := by
  unfold send_cmd
  cases h : resolve_boundary bp st with
  | error e => exact ⟨rfl, rfl, rfl, rfl⟩
  | ok pat =>
    exact bfi_modes pat 300 { st with sent := st.sent ++ [wire_of c] }

theorem send_loop_modes :
    ∀ (cmds : List String) (bp : String) (st : DeviceState),
    ((send_loop cmds bp st).2).userMode = st.userMode ∧
    ((send_loop cmds bp st).2).privilegeMode = st.privilegeMode ∧
    ((send_loop cmds bp st).2).configMode = st.configMode ∧
    ((send_loop cmds bp st).2).channelClosed = st.channelClosed
  | [], bp, st => ⟨rfl, rfl, rfl, rfl⟩
  | c :: rest, bp, st => by
    have h1 := send_cmd_modes c bp st
    unfold send_loop
    rcases hs : send_cmd c bp st with ⟨r, st1⟩
    rw [hs] at h1
    cases r with
    | error e => exact h1
    | ok rs =>
      have h2 := send_loop_modes rest bp st1
      rcases hl : send_loop rest bp st1 with ⟨r2, st2⟩
      rw [hl] at h2
      simp only [hl]
      cases r2 with
      | error e => exact ⟨h2.1.trans h1.1, h2.2.1.trans h1.2.1,
          h2.2.2.1.trans h1.2.2.1, h2.2.2.2.trans h1.2.2.2⟩
      | ok acc => exact ⟨h2.1.trans h1.1, h2.2.1.trans h1.2.1,
          h2.2.2.1.trans h1.2.2.1, h2.2.2.2.trans h1.2.2.2⟩

theorem exec_command_priv_modes (f : Nat) (c bp : String) (st : DeviceState)
    (h : st.privilegeMode = true) :
    ((exec_command f [c] bp st).2).userMode = st.userMode ∧
    ((exec_command f [c] bp st).2).privilegeMode = st.privilegeMode ∧
    ((exec_command f [c] bp st).2).configMode = st.configMode ∧
    ((exec_command f [c] bp st).2).channelClosed = st.channelClosed := by
  cases f with
  | zero => exact ⟨rfl, rfl, rfl, rfl⟩
  | succ f =>
    have h1 := send_cmd_modes c bp st
    unfold exec_command
    simp only [h, if_true]
    rcases hs : send_cmd c bp st with ⟨r, st2⟩
    rw [hs] at h1
    cases r with
    | error e => exact ⟨h1.1, h1.2.1.trans h, h1.2.2.1, h1.2.2.2⟩
    | ok rs => exact ⟨h1.1, h1.2.1.trans h, h1.2.2.1, h1.2.2.2⟩

theorem enter_priv_ok_modes (f : Nat) (st st' : DeviceState) (u : Unit)
    (h : enter_privilege_mode f st = (.ok u, st')) :
    st'.userMode = false ∧ st'.privilegeMode = true ∧ st'.configMode = false := by
  cases f with
  | zero => simp [enter_privilege_mode] at h
  | succ f =>
    unfold enter_privilege_mode at h
    cases hu : st.userMode with
    | false => simp [hu] at h
    | true =>
      simp only [hu, if_true] at h
      cases hpw : st.privilegePassword with
      | none => simp [hpw] at h
      | some pw =>
        simp only [hpw] at h
        rcases hm : exec_multiple_commands f ["enable", pw]
            (st.defaultBoundaryPattern ++ privilege_mode_prompt) false st with ⟨r, st1⟩
        simp only [hm] at h
        cases r with
        | error e => simp at h
        | ok res =>
          have h2 := exec_command_priv_modes f "terminal length 0" ""
            { st1 with userMode := false, privilegeMode := true, configMode := false } rfl
          rcases he : exec_command f ["terminal length 0"] ""
              { st1 with userMode := false, privilegeMode := true, configMode := false }
            with ⟨r2, st3⟩
          rw [he] at h2
          simp only [he] at h
          cases r2 with
          | error e => simp at h
          | ok rs =>
            have hst : st3 = st' := by
              injection h with hA hB
            rw [← hst]
            exact ⟨h2.1, h2.2.1, h2.2.2.1⟩

theorem check_initial_ok_modes (f : Nat) (st st' : DeviceState)
    (h : check_initial_mode f st = (.ok (), st')) :
    exactlyOneMode st' = true ∧ st'.configMode = false := by
  unfold check_initial_mode at h
  rcases hs : send_cmd st.initialCommand st.defaultBoundaryPattern st with ⟨r, st1⟩
  simp only [hs] at h
  cases r with
  | error e => simp at h
  | ok rs =>
    simp only [] at h
    split at h
    · have h2 : ({ st1 with userMode := true, privilegeMode := false, configMode := false } : DeviceState) = st' := by
        injection h with hA hB
      rw [← h2]
      exact ⟨rfl, rfl⟩
    · split at h
      · unfold terminal_length_zero at h
        have h2 := exec_command_priv_modes f "terminal length 0" ""
          { st1 with userMode := false, privilegeMode := true, configMode := false } rfl
        rcases he : exec_command f ["terminal length 0"] ""
            { st1 with userMode := false, privilegeMode := true, configMode := false }
          with ⟨r2, st3⟩
        rw [he] at h2
        simp only [he] at h
        cases r2 with
        | error e => simp at h
        | ok rs2 =>
          have hst : st3 = st' := by
            injection h with hA hB
          rw [← hst]
          refine ⟨?_, h2.2.2.1⟩
          unfold exactlyOneMode
          rw [h2.1, h2.2.1, h2.2.2.1]
          rfl
      · simp at h

theorem exec_command_ok_exactlyOne (f : Nat) (cmds : List String) (bp : String)
    (st : DeviceState) (r : List String) (st' : DeviceState)
    (hx : exactlyOneMode st = true)
    (h : exec_command f cmds bp st = (.ok r, st')) :
    exactlyOneMode st' = true := by
  cases f with
  | zero => simp [exec_command] at h
  | succ f =>
    unfold exec_command at h
    match cmds, h with
    | [c], h =>
      cases hpm : st.privilegeMode with
      | true =>
        simp only [hpm, if_true] at h
        have h1 := send_cmd_modes c bp st
        rcases hs : send_cmd c bp st with ⟨rr, st2⟩
        rw [hs] at h1
        simp only [hs] at h
        cases rr with
        | error e => simp at h
        | ok rs =>
          have hst : st2 = st' := by
            injection h with hA hB
          rw [← hst]
          unfold exactlyOneMode
          rw [h1.1, h1.2.1, h1.2.2.1]
          exact hx
      | false =>
        simp only [hpm, Bool.false_eq_true, if_false] at h
        have hP := enter_priv_ok_modes f st
        rcases hep : enter_privilege_mode f st with ⟨re, st1⟩
        simp only [hep] at h
        cases re with
        | error e => simp at h
        | ok u =>
          have hmodes := enter_priv_ok_modes f st st1 u hep
          cases hp1 : st1.privilegeMode with
          | false => rw [hmodes.2.1] at hp1; exact absurd hp1 (by simp)
          | true =>
            simp only [hp1, if_true] at h
            have h1 := send_cmd_modes c bp st1
            rcases hs : send_cmd c bp st1 with ⟨rr, st2⟩
            rw [hs] at h1
            simp only [hs] at h
            cases rr with
            | error e => simp at h
            | ok rs =>
              have hst : st2 = st' := by
                injection h with hA hB
              rw [← hst]
              unfold exactlyOneMode
              rw [h1.1, h1.2.1, h1.2.2.1, hmodes.1, hmodes.2.1, hmodes.2.2]
              rfl

theorem exactlyOne_of_eq {a b : DeviceState} (h1 : a.userMode = b.userMode)
    (h2 : a.privilegeMode = b.privilegeMode) (h3 : a.configMode = b.configMode)
    (hx : exactlyOneMode b = true) : exactlyOneMode a = true := by
  unfold exactlyOneMode at hx ⊢
  rw [h1, h2, h3]
  exact hx

theorem send_loop_ok_exactlyOne (cmds : List String) (bp : String)
    (st : DeviceState) (r : List (List String)) (st' : DeviceState)
    (hx : exactlyOneMode st = true) (h : send_loop cmds bp st = (.ok r, st')) :
    exactlyOneMode st' = true := by
  have hm := send_loop_modes cmds bp st
  rw [h] at hm
  simp only [] at hm
  exact exactlyOne_of_eq hm.1 hm.2.1 hm.2.2.1 hx

theorem exec_multiple_ok_exactlyOne (f : Nat) (cmds : List String) (bp : String)
    (cfg : Bool) (st : DeviceState) (r : List (List String)) (st' : DeviceState)
    (hx : exactlyOneMode st = true)
    (h : exec_multiple_commands f cmds bp cfg st = (.ok r, st')) :
    exactlyOneMode st' = true := by
  cases f with
  | zero => simp [exec_multiple_commands] at h
  | succ f =>
    unfold exec_multiple_commands at h
    cases cfg with
    | true =>
      cases hc : st.configMode with
      | false => simp [hc, enter_config_mode] at h
      | true =>
        simp only [hc, if_true] at h
        split at h
        · split at h
          · exact send_loop_ok_exactlyOne cmds bp st r st' hx h
          · simp at h
        · simp at h
    | false =>
      simp only [Bool.false_eq_true, if_false] at h
      cases hp : st.privilegeMode with
      | true =>
        simp only [hp, if_true] at h
        split at h
        · split at h
          · exact send_loop_ok_exactlyOne cmds bp st r st' hx h
          · simp at h
        · simp at h
      | false =>
        simp only [hp, Bool.false_eq_true, if_false] at h
        rcases hep : enter_privilege_mode f st with ⟨re, st1⟩
        simp only [hep] at h
        cases re with
        | error e => simp at h
        | ok u =>
          simp only [] at h
          have hmodes := enter_priv_ok_modes f st st1 u hep
          have hx1 : exactlyOneMode st1 = true := by
            unfold exactlyOneMode
            rw [hmodes.1, hmodes.2.1, hmodes.2.2]
            rfl
          split at h
          · split at h
            · exact send_loop_ok_exactlyOne cmds bp st1 r st' hx1 h
            · simp at h
          · simp at h

theorem mutual_recursion_diverges (pw : String) :
    ∀ (f : Nat) (st : DeviceState), st.userMode = true → st.privilegeMode = false →
      st.privilegePassword = some pw →
      (∀ (cmds : List String) (bp : String),
        exec_multiple_commands f cmds bp false st = (.error .recursionError, st)) ∧
      enter_privilege_mode f st = (.error .recursionError, st)
  | 0, st, hu, hp, hpw => ⟨fun cmds bp => rfl, rfl⟩
  | f + 1, st, hu, hp, hpw => by
    have ih := mutual_recursion_diverges pw f st hu hp hpw
    constructor
    · intro cmds bp
      unfold exec_multiple_commands
      simp only [hp, Bool.false_eq_true, if_false, ih.2]
    · unfold enter_privilege_mode
      simp only [hu, if_true, hpw, ih.1]

theorem boundary_loop_timeout_eq (p : String) :
    ∀ (script : List (Nat × String)) (w w2 : Nat) (data : String),
      (∀ dc ∈ script, dc.1 = 0 ∨ (dc.1 < w ∧ dc.1 < w2)) →
      boundary_loop p w data script = boundary_loop p w2 data script
  | [], _, _, _, _ => rfl
  | (d, c) :: rest, w, w2, data, hdel => by
    have hd := hdel (d, c) (List.mem_cons_self _ _)
    have hc1 : ¬(0 < d ∧ w ≤ d) := by
      simp only [] at hd
      omega
    have hc2 : ¬(0 < d ∧ w2 ≤ d) := by
      simp only [] at hd
      omega
    have ih := boundary_loop_timeout_eq p rest w w2 (data ++ c)
      (fun dc hmem => hdel dc (List.mem_cons_of_mem _ hmem))
    conv_lhs => rw [boundary_loop]
    conv_rhs => rw [boundary_loop]
    rw [if_neg hc1, if_neg hc2]
    simp only []
    by_cases h1 : reMatch p (pyStrip ((pySplitNl (data ++ c)).getLastD "")) = true
    · rw [if_pos h1, if_pos h1]
    · rw [if_neg h1, if_neg h1]
      exact ih

theorem boundary_loop_success (p : String) (w : Nat) :
    ∀ (script : List (Nat × String)) (data : String),
      (∀ dc ∈ script, dc.1 = 0 ∨ dc.1 < w) →
      (∃ k, 1 ≤ k ∧ k ≤ script.length ∧
        reMatch p (pyStrip ((pySplitNl (data ++ chunksData (script.take k))).getLastD "")) = true) →
      ∃ k, 1 ≤ k ∧ k ≤ script.length ∧
        reMatch p (pyStrip ((pySplitNl (data ++ chunksData (script.take k))).getLastD "")) = true ∧
        boundary_loop p w data script =
          (.ok (data ++ chunksData (script.take k),
                pySplitNl (data ++ chunksData (script.take k))), script.drop k)
  | [], data, _, hm => by
    obtain ⟨k, hk1, hk2, _⟩ := hm
    simp at hk2
    omega
  | (d, c) :: rest, data, hdel, hm => by
    have hd := hdel (d, c) (List.mem_cons_self _ _)
    have hc1 : ¬(0 < d ∧ w ≤ d) := by
      simp only [] at hd
      omega
    by_cases h1 : reMatch p (pyStrip ((pySplitNl (data ++ c)).getLastD "")) = true
    · have hloop : boundary_loop p w data ((d, c) :: rest) =
          (.ok (data ++ c, pySplitNl (data ++ c)), rest) := by
        conv_lhs => rw [boundary_loop]
        rw [if_neg hc1]
        simp only []
        rw [if_pos h1]
      have e1 : data ++ chunksData (((d, c) :: rest).take 1) = data ++ c := by
        rw [List.take_succ_cons, List.take_zero]
        show data ++ (c ++ "") = data ++ c
        rw [str_append_empty]
      refine ⟨1, le_refl 1, by simp, ?_, ?_⟩
      · rw [e1]
        exact h1
      · rw [e1]
        exact hloop
    · have hloop : boundary_loop p w data ((d, c) :: rest) =
          boundary_loop p w (data ++ c) rest := by
        conv_lhs => rw [boundary_loop]
        rw [if_neg hc1]
        simp only []
        rw [if_neg h1]
      obtain ⟨k, hk1, hk2, hk3⟩ := hm
      rcases k with _ | k'
      · omega
      · rcases k' with _ | k''
        · have e1 : data ++ chunksData (((d, c) :: rest).take 1) = data ++ c := by
            rw [List.take_succ_cons, List.take_zero]
            show data ++ (c ++ "") = data ++ c
            rw [str_append_empty]
          rw [e1] at hk3
          exact absurd hk3 h1
        · have e2 : ∀ (n : Nat), data ++ chunksData (((d, c) :: rest).take (n + 1)) =
              (data ++ c) ++ chunksData (rest.take n) := by
            intro n
            rw [List.take_succ_cons]
            show data ++ (c ++ chunksData (rest.take n)) = _
            rw [str_append_assoc]
          have hk2' : k'' + 1 ≤ rest.length := by
            simp at hk2
            omega
          have hk3' : reMatch p (pyStrip ((pySplitNl ((data ++ c) ++
              chunksData (rest.take (k'' + 1)))).getLastD "")) = true := by
            rw [← e2]
            exact hk3
          obtain ⟨j, hj1, hj2, hj3, hj4⟩ := boundary_loop_success p w rest (data ++ c)
            (fun dc hmem => hdel dc (List.mem_cons_of_mem _ hmem))
            ⟨k'' + 1, by omega, hk2', hk3'⟩
          refine ⟨j + 1, by omega, by simp; omega, ?_, ?_⟩
          · rw [e2 j]
            exact hj3
          · rw [e2 j, hloop, List.drop_succ_cons]
            exact hj4

/-- A session in user mode with a privilege password configured. -/
def stUserPw : DeviceState :=
  { host := "router1", defaultBoundaryPattern := "router1", initialCommand := "\n",
    privilegePassword := some "secret", userMode := true, privilegeMode := false,
    configMode := false, channelClosed := false, sent := [], script := [] }

/-- A session in user mode with no privilege password configured. -/
def stUserNoPw : DeviceState :=
  { host := "router1", defaultBoundaryPattern := "router1", initialCommand := "\n",
    privilegePassword := none, userMode := true, privilegeMode := false,
    configMode := false, channelClosed := false, sent := [], script := [] }

/-- A session already in privilege mode. -/
def stPriv : DeviceState :=
  { host := "router1", defaultBoundaryPattern := "router1", initialCommand := "\n",
    privilegePassword := none, userMode := false, privilegeMode := true,
    configMode := false, channelClosed := false, sent := [], script := [] }

/-- A freshly connected session whose probe response ends in a line that
contains the user-prompt form only as an inner substring. -/
def stFreshBanner : DeviceState :=
  { host := "router1", defaultBoundaryPattern := "router1", initialCommand := "\n",
    privilegePassword := none, userMode := false, privilegeMode := false,
    configMode := false, channelClosed := false, sent := [],
    script := [(0, "router1 router1>")] }

/-- A freshly connected session whose probe response is the user prompt. -/
def stProbe : DeviceState :=
  { host := "router1", defaultBoundaryPattern := "router1", initialCommand := "\n",
    privilegePassword := none, userMode := false, privilegeMode := false,
    configMode := false, channelClosed := false, sent := [],
    script := [(0, "router1>")] }

/-- The session state of stProbe right after the probe newline is sent and
the prompt chunk is read, before any mode flag is set. -/
def stProbeSent : DeviceState :=
  { stProbe with sent := ["\n"], script := [] }

/-- The session state after the successful user-mode probe on stProbe. -/
def stProbeDone : DeviceState :=
  { stProbeSent with userMode := true }

/-- A session whose channel delivers a banner chunk and then, after a short
silence, the user prompt. -/
def stProbeB : DeviceState :=
  { host := "router1", defaultBoundaryPattern := "router1", initialCommand := "\n",
    privilegePassword := none, userMode := false, privilegeMode := false,
    configMode := false, channelClosed := false, sent := [],
    script := [(0, "banner line\n"), (5, "router1>")] }

/-- A session whose channel delivers one chunk. -/
def stHi : DeviceState :=
  { host := "router1", defaultBoundaryPattern := "router1", initialCommand := "\n",
    privilegePassword := none, userMode := false, privilegeMode := false,
    configMode := false, channelClosed := false, sent := [], script := [(0, "hi")] }

/-- A session whose channel stays silent for a full timeout window before its
only chunk. -/
def stSlow : DeviceState :=
  { host := "router1", defaultBoundaryPattern := "router1", initialCommand := "\n",
    privilegePassword := none, userMode := false, privilegeMode := false,
    configMode := false, channelClosed := false, sent := [], script := [(300, "x")] }

/-- C1: for a session in user mode (probe response matched the user prompt)
with a privilege password configured, exec_command with the single command
show version never sends the escalation sequence: _enter_privilege_mode calls
the high-level exec_multiple_commands while the privilege flag is still
false, which calls _enter_privilege_mode again, and the mutual recursion
never terminates (a RecursionError in Python, modelled as exhausting every
fuel bound).  The returned state equals the input state, so neither enable
nor the password nor show version is ever sent and the flags never flip. -/
theorem c1_escalation_recursion (f : Nat) (st : DeviceState) (bp pw : String)
    (hu : st.userMode = true) (hp : st.privilegeMode = false)
    (hpw : st.privilegePassword = some pw) :
    exec_command f ["show version"] bp st = (.error .recursionError, st) := by
  cases f with
  | zero => rfl
  | succ f =>
    unfold exec_command
    simp only [hp, Bool.false_eq_true, if_false, (mutual_recursion_diverges pw f st hu hp hpw).2]

/-- C1 witness: the divergence at the concrete scenario of the claim, for a
large concrete fuel bound. -/
theorem c1_escalation_recursion_witness :
    exec_command 1000 ["show version"] "" stUserPw = (.error .recursionError, stUserPw) :=
  c1_escalation_recursion 1000 stUserPw "" "secret" rfl rfl rfl

/-- C2 counterexample: with the session in user mode and no privilege
password, exec_multiple_commands with an empty command list does not surface
a ValueError immediately with no channel traffic performed: mode handling runs
first, raising the missing-credential SSHNetworkDeviceError and closing the
channel as a side effect before the empty list is ever examined. -/
theorem c2_counterexample :
    exec_multiple_commands 5 [] "" false stUserNoPw =
      (.error (.sshError msg_missing), { stUserNoPw with channelClosed := true }) ∧
    ((exec_multiple_commands 5 [] "" false stUserNoPw).2).channelClosed = true ∧
    (exec_multiple_commands 5 [] "" false stUserNoPw).1 ≠
      .error (.valueError msg_value_empty) := by
  exact ⟨by decide, by decide, by decide⟩

/-- C2 (amended): an empty command list fails with ValueError only after mode
handling; when the session already holds the required mode flag (privilege
mode for a plain call, config mode for a config call), the ValueError is
raised with the state unchanged, hence with no channel traffic. -/
theorem c2_empty_commands (f : Nat) (bp : String) (st : DeviceState) :
    (st.privilegeMode = true →
      exec_multiple_commands (f + 1) [] bp false st =
        (.error (.valueError msg_value_empty), st)) ∧
    (st.configMode = true →
      exec_multiple_commands (f + 1) [] bp true st =
        (.error (.valueError msg_value_empty), st)) := by
  constructor
  · intro h
    unfold exec_multiple_commands
    simp [h]
  · intro h
    unfold exec_multiple_commands
    simp [h]

/-- C2 witness: the amended behaviour at a concrete privileged session. -/
theorem c2_empty_commands_witness :
    exec_multiple_commands 1 [] "" false stPriv =
      (.error (.valueError msg_value_empty), stPriv) :=
  (c2_empty_commands 0 "" stPriv).1 rfl

/-- C3 counterexample: with host router1 and a probe response whose last line
is the string router1 router1>, the source sets user mode and succeeds, even
though under the prefix-anchored, case-insensitive matching of the trimmed
last line that the claim states, neither the user-prompt form nor the
privileged-prompt form matches, so the claim would require a fatal
UnexpectedPrompt error.  The source instead uses re.search, which is
substring containment. -/
theorem c3_counterexample :
    (check_initial_mode 1 stFreshBanner).1 = .ok () ∧
    ((check_initial_mode 1 stFreshBanner).2).userMode = true ∧
    spec_initial_user_match "router1" "router1 router1>" = false ∧
    spec_initial_priv_match "router1" "router1 router1>" = false := by
  exact ⟨by decide, by decide, by decide, by decide⟩

/-- C3 (amended): initial mode detection tests the lowercased, untrimmed last
line of the probe response with substring (re.search), case-insensitive
matching: the user-prompt form is tried first and wins, and when neither the
user form nor the privileged form is found anywhere in that line the probe
fails with the fatal unexpected-prompt SSHNetworkDeviceError. -/
theorem c3_search_matching (f : Nat) (st : DeviceState) (raw : String)
    (dsplit : List String) (st1 : DeviceState)
    (hsend : send_cmd st.initialCommand st.defaultBoundaryPattern st =
      (.ok (raw, dsplit), st1)) :
    (reSearch (st.defaultBoundaryPattern ++ user_mode_prompt)
        (pyLower (dsplit.getLastD "")) = true →
      check_initial_mode f st =
        (.ok (), { st1 with userMode := true, privilegeMode := false, configMode := false })) ∧
    (reSearch (st.defaultBoundaryPattern ++ user_mode_prompt)
        (pyLower (dsplit.getLastD "")) = false →
      reSearch (st.defaultBoundaryPattern ++ privilege_mode_prompt)
        (pyLower (dsplit.getLastD "")) = false →
      check_initial_mode f st =
        (.error (.sshError (msg_unexpected_prompt ++ pyLower (dsplit.getLastD ""))), st1)) := by
  constructor
  · intro hU
    unfold check_initial_mode
    rw [hsend]
    simp only []
    rw [if_pos hU]
  · intro hU hP
    rw [List.getLastD_eq_getLast?] at hU hP
    unfold check_initial_mode
    rw [hsend]
    simp only []
    rw [if_neg (by simp [hU]), if_neg (by simp [hP])]

/-- C3 witness: the probe on a channel answering with the plain user prompt
sets user mode through the substring test. -/
theorem c3_search_matching_witness :
    check_initial_mode 1 stProbe =
      (.ok (), { stProbeSent with userMode := true, privilegeMode := false, configMode := false }) :=
  (c3_search_matching 1 stProbe "router1>" ["router1>"] stProbeSent (by decide)).1 (by decide)

/-- C4 counterexample: the claim quantifies over every boundary pattern, but
for a pattern that matches the empty string (such as the star-of-dot
override) the read loop does not terminate with the accumulated data even
though the last line of the incoming data matches the pattern as a prefix:
the loop body never runs and the function fails with the unbound-local
error instead. -/
theorem c4_counterexample :
    reMatch ".*" (pyStrip ((pySplitNl (chunksData (stHi.script.take 1))).getLastD "")) = true ∧
    boundary_for_interactive ".*" 300 stHi = (.error (.unboundLocal "data_split"), stHi) ∧
    (boundary_for_interactive ".*" 300 stHi).1 ≠
      .ok (chunksData (stHi.script.take 1), pySplitNl (chunksData (stHi.script.take 1))) := by
  exact ⟨by decide, by decide, by decide⟩

/-- C4 (amended): for every boundary pattern that does not match the empty
string, and every incoming chunk sequence, each chunk arriving within the
timeout window, such that for some accumulation of its first chunks the last
line of the accumulated buffer, split on newline and stripped of leading and
trailing carriage-return and newline characters, case-insensitively matches
the pattern as a prefix, the read loop terminates and returns all data
accumulated since the call began up to and including a matching chunk,
together with that data split on newline, consuming exactly those chunks
from the channel. -/
theorem c4_read_loop_returns (p : String) (w : Nat) (st : DeviceState)
    (hne : reMatch p "" = false)
    (hdel : ∀ dc ∈ st.script, dc.1 = 0 ∨ dc.1 < w)
    (hm : ∃ k, 1 ≤ k ∧ k ≤ st.script.length ∧
      reMatch p (pyStrip ((pySplitNl (chunksData (st.script.take k))).getLastD "")) = true) :
    ∃ k, 1 ≤ k ∧ k ≤ st.script.length ∧
      reMatch p (pyStrip ((pySplitNl (chunksData (st.script.take k))).getLastD "")) = true ∧
      boundary_for_interactive p w st =
        (.ok (chunksData (st.script.take k), pySplitNl (chunksData (st.script.take k))),
         { st with script := st.script.drop k }) := by
  have hm2 : ∃ k, 1 ≤ k ∧ k ≤ st.script.length ∧
      reMatch p (pyStrip ((pySplitNl ("" ++ chunksData (st.script.take k))).getLastD "")) = true := by
    obtain ⟨k, h1, h2, h3⟩ := hm
    refine ⟨k, h1, h2, ?_⟩
    rw [str_empty_append]
    exact h3
  obtain ⟨k, h1, h2, h3, h4⟩ := boundary_loop_success p w st.script "" hdel hm2
  rw [str_empty_append] at h3 h4
  refine ⟨k, h1, h2, h3, ?_⟩
  unfold boundary_for_interactive
  rw [if_neg (by simp [hne])]
  simp only []
  rw [h4]

/-- C4 witness: a banner chunk followed by the prompt chunk is read whole;
the returned raw data is the concatenation of both chunks and the split is
on newline. -/
theorem c4_read_loop_returns_witness :
    ∃ k, 1 ≤ k ∧ k ≤ stProbeB.script.length ∧
      reMatch "router1" (pyStrip ((pySplitNl (chunksData (stProbeB.script.take k))).getLastD "")) = true ∧
      boundary_for_interactive "router1" 300 stProbeB =
        (.ok (chunksData (stProbeB.script.take k), pySplitNl (chunksData (stProbeB.script.take k))),
         { stProbeB with script := stProbeB.script.drop k }) :=
  c4_read_loop_returns "router1" 300 stProbeB (by decide) (by decide)
    ⟨2, by decide, by decide, by decide⟩

/-- C5: reads fail with the Timeout error exactly when the channel is silent
for the whole window before a receipt: the first part states that with the
channel silent, empty or delaying its next chunk for at least the window
(expired_time, 300 deciseconds that is 30 seconds by default), the read
returns the TimeoutError and leaves the session state unchanged, so the mode
flags are untouched and the channel is not closed; the second part states
that the timer guards per-receipt silence rather than overall call duration:
two window values give identical runs whenever every chunk gap is below
both, however long the whole read takes. -/
theorem c5_timeout_semantics :
    (∀ (p : String) (w : Nat) (st : DeviceState), reMatch p "" = false →
      (st.script = [] ∨ ∃ d c rest, st.script = (d, c) :: rest ∧ 0 < d ∧ w ≤ d) →
      boundary_for_interactive p w st = (.error (.timeoutError msg_timeout), st)) ∧
    (∀ (p : String) (w w2 : Nat) (data : String) (script : List (Nat × String)),
      (∀ dc ∈ script, dc.1 = 0 ∨ (dc.1 < w ∧ dc.1 < w2)) →
      boundary_loop p w data script = boundary_loop p w2 data script) := by
  constructor
  · intro p w st hne hsil
    unfold boundary_for_interactive
    rw [if_neg (by simp [hne])]
    simp only []
    have hres : boundary_loop p w "" st.script = (.error (.timeoutError msg_timeout), st.script) := by
      rcases hsil with hnil | ⟨d, c, rest, hcons, hd0, hdw⟩
      · rw [hnil]
        rfl
      · rw [hcons]
        conv_lhs => rw [boundary_loop]
        rw [if_pos ⟨hd0, hdw⟩]
    rw [hres]
  · intro p w w2 data script h
    exact boundary_loop_timeout_eq p script w w2 data h

/-- C5 witness: a channel that delays its only chunk for a full window times
out with the state unchanged, and a two-chunk run whose gaps are each below
the window is identical under a much larger window. -/
theorem c5_timeout_semantics_witness :
    boundary_for_interactive "router1" 300 stSlow = (.error (.timeoutError msg_timeout), stSlow) ∧
    boundary_loop "router1" 300 "" [(299, "a\n"), (299, "router1>")] =
      boundary_loop "router1" 700 "" [(299, "a\n"), (299, "router1>")] :=
  ⟨c5_timeout_semantics.1 "router1" 300 stSlow (by decide)
      (Or.inr ⟨300, "x", [], by decide, by decide, by decide⟩),
   c5_timeout_semantics.2 "router1" 300 700 "" [(299, "a\n"), (299, "router1>")] (by decide)⟩

/-- C6 counterexample: with the session in user mode (configuration mode not
entered, privilege password available), exec_multiple_commands with the
config flag does not escalate through privileged mode and never enters
configuration mode: _enter_config_mode is the base-class re-write-me stub,
not overridden by SSHCiscoDevice, so the call raises its
SSHNetworkDeviceError at once; the state is unchanged, so nothing is sent
and the config flag stays false. -/
theorem c6_counterexample :
    exec_multiple_commands 5 ["interface g1"] "" true stUserPw =
      (.error (.sshError msg_abstract), stUserPw) ∧
    ((exec_multiple_commands 5 ["interface g1"] "" true stUserPw).2).configMode = false ∧
    ((exec_multiple_commands 5 ["interface g1"] "" true stUserPw).2).sent = [] := by
  exact ⟨by decide, by decide, by decide⟩

/-- C6 (amended): every exec_multiple_commands call with the config flag
while configuration mode has not been entered raises the abstract-method
SSHNetworkDeviceError from _enter_config_mode, which neither the base class
nor SSHCiscoDevice implements; no privileged-mode escalation is attempted,
no command is sent, the state is returned unchanged, and configuration mode
is never reached. -/
theorem c6_config_unimplemented (f : Nat) (cmds : List String) (bp : String)
    (st : DeviceState) (h : st.configMode = false) :
    exec_multiple_commands (f + 1) cmds bp true st = (.error (.sshError msg_abstract), st) := by
  unfold exec_multiple_commands
  simp [h, enter_config_mode]

/-- C6 witness: the amended behaviour from a privileged session. -/
theorem c6_config_unimplemented_witness :
    exec_multiple_commands 1 ["x"] "" true stPriv = (.error (.sshError msg_abstract), stPriv) :=
  c6_config_unimplemented 0 ["x"] "" stPriv rfl

/-- C7: every privileged-mode escalation requested while the session is in
user mode with no privilege password configured fails with the
missing-credential SSHNetworkDeviceError, and as a side effect the channel
is closed: the returned state is the input state with the channel-closed
flag set, and the channel reports closed afterwards. -/
theorem c7_missing_credential (f : Nat) (st : DeviceState)
    (hu : st.userMode = true) (hpw : st.privilegePassword = none) :
    enter_privilege_mode (f + 1) st =
      (.error (.sshError msg_missing), { st with channelClosed := true }) ∧
    ((enter_privilege_mode (f + 1) st).2).channelClosed = true := by
  have h : enter_privilege_mode (f + 1) st =
      (.error (.sshError msg_missing), { st with channelClosed := true }) := by
    unfold enter_privilege_mode
    simp [hu, hpw]
  exact ⟨h, by rw [h]⟩

/-- C7 witness: the concrete scenario of the claim. -/
theorem c7_missing_credential_witness :
    enter_privilege_mode 3 stUserNoPw =
      (.error (.sshError msg_missing), { stUserNoPw with channelClosed := true }) ∧
    ((enter_privilege_mode 3 stUserNoPw).2).channelClosed = true :=
  c7_missing_credential 2 stUserNoPw rfl rfl

/-- C8: constructing an SSHCiscoDevice with a bare-IP host and no explicit
boundary pattern fails with the SSHNetworkDeviceError of
_set_default_boundary_pattern at configuration time; the result does not
depend on the channel script or on any credential, reflecting that the
rejection happens before any connection is made or any channel traffic
occurs. -/
theorem c8_ambiguous_ip (f : Nat) (host ic : String) (pw : Option String)
    (script : List (Nat × String)) (hip : is_host_ip_address host = true) :
    mkSSHCiscoDevice f host "" ic pw script = .error (.sshError msg_ip_host) := by
  unfold mkSSHCiscoDevice set_default_boundary_pattern_cisco
  simp [hip]

/-- C8 witness: the concrete scenario of the claim, host 192.0.2.1. -/
theorem c8_ambiguous_ip_witness :
    mkSSHCiscoDevice 1 "192.0.2.1" "" "" none [] = .error (.sshError msg_ip_host) :=
  c8_ambiguous_ip 1 "192.0.2.1" "" none [] (by decide)

/-- C9: the mode-flag invariant.  Before initialization all three CLI flags
are false (freshDeviceState is the state right after the channel is
obtained); a successful _check_initial_mode leaves exactly one flag set and
it is never the config flag, so it is one of user or privileged; a
successful _enter_privilege_mode leaves the privileged flag true with the
user and config flags false; and every successful exec_command or
exec_multiple_commands call preserves the exactly-one-flag property. -/
theorem c9_mode_invariant :
    (∀ (host dbp ic : String) (pw : Option String) (script : List (Nat × String)),
      (freshDeviceState host dbp ic pw script).userMode = false ∧
      (freshDeviceState host dbp ic pw script).privilegeMode = false ∧
      (freshDeviceState host dbp ic pw script).configMode = false) ∧
    (∀ (f : Nat) (st st' : DeviceState), check_initial_mode f st = (.ok (), st') →
      exactlyOneMode st' = true ∧ st'.configMode = false) ∧
    (∀ (f : Nat) (st st' : DeviceState) (u : Unit),
      enter_privilege_mode f st = (.ok u, st') →
      st'.privilegeMode = true ∧ st'.userMode = false ∧ st'.configMode = false) ∧
    (∀ (f : Nat) (cmds : List String) (bp : String) (st : DeviceState)
        (r : List String) (st' : DeviceState), exactlyOneMode st = true →
      exec_command f cmds bp st = (.ok r, st') → exactlyOneMode st' = true) ∧
    (∀ (f : Nat) (cmds : List String) (bp : String) (cfg : Bool) (st : DeviceState)
        (r : List (List String)) (st' : DeviceState), exactlyOneMode st = true →
      exec_multiple_commands f cmds bp cfg st = (.ok r, st') →
      exactlyOneMode st' = true) := by
  refine ⟨fun host dbp ic pw script => ⟨rfl, rfl, rfl⟩, check_initial_ok_modes, ?_, ?_, ?_⟩
  · intro f st st' u h
    have m := enter_priv_ok_modes f st st' u h
    exact ⟨m.2.1, m.1, m.2.2⟩
  · intro f cmds bp st r st' hx h
    exact exec_command_ok_exactlyOne f cmds bp st r st' hx h
  · intro f cmds bp cfg st r st' hx h
    exact exec_multiple_ok_exactlyOne f cmds bp cfg st r st' hx h

/-- C9 witness: the freshly connected session has all flags false, and the
concrete successful probe run leaves exactly one flag set. -/
theorem c9_mode_invariant_witness :
    ((freshDeviceState "router1" "router1" "\n" none []).userMode = false ∧
      (freshDeviceState "router1" "router1" "\n" none []).privilegeMode = false ∧
      (freshDeviceState "router1" "router1" "\n" none []).configMode = false) ∧
    exactlyOneMode stProbeDone = true :=
  ⟨c9_mode_invariant.1 "router1" "router1" "\n" none [],
   (c9_mode_invariant.2.1 1 stProbe stProbeDone (by decide)).1⟩

/-- C10: for every boundary pattern that matches the empty string, such as
the star-of-dot override passed through Commands.boundary_pattern into
_send, the termination test of the read loop succeeds against the initial
empty target string before any data is received, so the loop body never
runs and _boundary_for_interactive fails with the Python UnboundLocalError
on data_split instead of returning data; through _send the same failure
occurs right after the command is written to the channel. -/
theorem c10_empty_pattern_unbound (p c : String) (w : Nat) (st : DeviceState)
    (h : reMatch p "" = true) :
    boundary_for_interactive p w st = (.error (.unboundLocal "data_split"), st) ∧
    (p ≠ "" → send_cmd c p st =
      (.error (.unboundLocal "data_split"), { st with sent := st.sent ++ [wire_of c] })) := by
  constructor
  · unfold boundary_for_interactive
    rw [if_pos h]
  · intro hp
    unfold send_cmd resolve_boundary
    rw [if_pos hp]
    simp only []
    unfold boundary_for_interactive
    rw [if_pos h]

/-- C10 witness: the star-of-dot override at a concrete session, both at the
read loop and through _send. -/
theorem c10_empty_pattern_unbound_witness :
    boundary_for_interactive ".*" 300 stUserPw = (.error (.unboundLocal "data_split"), stUserPw) ∧
    send_cmd "show version" ".*" stUserPw =
      (.error (.unboundLocal "data_split"),
       { stUserPw with sent := stUserPw.sent ++ [wire_of "show version"] }) :=
  ⟨(c10_empty_pattern_unbound ".*" "show version" 300 stUserPw (by decide)).1,
   (c10_empty_pattern_unbound ".*" "show version" 300 stUserPw (by decide)).2 (by decide)⟩
